import Mathlib

/-!
Verification of the Wiz GraphQL proxy service (src/wiz-graphql-proxy.py).

The proxy keeps a single global token cache `token_cache = {access_token, expires_at}`,
refreshes it through an OAuth client-credentials exchange (`get_wiz_token`), and
forwards POSTed GraphQL bodies to the upstream API (`proxy_graphql`), relaying the
upstream status and body.  Time is modelled in integer seconds; the identity
provider, the Flask JSON body parser and the upstream HTTP call are modelled as
environment inputs describing what each external call returns.
-/

/-- The global `token_cache` dict: `access_token` (a string or `None`) and
`expires_at` (a `datetime` or `None`, modelled as absolute seconds). -/
structure TokenCache where
  access_token : Option String
  expires_at : Option Int
deriving DecidableEq, Repr

/-- Exceptions that can escape `get_wiz_token` or the body parse:
`requests.exceptions.RequestException` (and subclasses such as `HTTPError` and
`JSONDecodeError`), `KeyError`, and werkzeug's `BadRequest` from `get_json()`. -/
inductive PyError where
  | requestException (msg : String)
  | keyError (key : String)
  | badRequest (msg : String)
deriving DecidableEq, Repr

/-- What the identity provider's token endpoint returns to `requests.post`:
a network-level failure (the post itself raises), a non-2xx status
(`raise_for_status` raises), a 2xx body that is not valid JSON
(`response.json()` raises), or a parsed JSON body with optional
`access_token` and `expires_in` fields. -/
inductive AuthResponse where
  | networkFailure (msg : String)
  | httpError (status : Int) (body : String)
  | invalidJson (body : String)
  | jsonBody (access_token : Option String) (expires_in : Option Int)
deriving DecidableEq, Repr

/-- A JSON value, as produced by Flask's `request.get_json()` and re-encoded by
`requests.post(..., json=...)`. -/
inductive JsonVal where
  | null
  | bool (b : Bool)
  | num (n : Int)
  | str (s : String)
  | arr (xs : List JsonVal)
  | obj (fields : List (String × JsonVal))
deriving Repr

/-- What `requests.post` to the upstream GraphQL URL produces: a network
failure/timeout (raises `RequestException`) or an HTTP response with a status
code and a body (`response.content`). -/
inductive UpstreamResult where
  | networkError (msg : String)
  | response (status : Int) (body : String)
deriving Repr

/-- The external world seen by one `proxy_graphql` invocation: what the
identity provider would answer if called, what `request.get_json()` returns
for the inbound body, and what the upstream GraphQL endpoint would answer. -/
structure ProxyEnv where
  authResp : AuthResponse
  getJsonResult : Except PyError JsonVal
  upstream : UpstreamResult

/-- Result of one call to `get_wiz_token`: the returned token or the raised
exception, the token cache afterwards, and how many acquisition requests were
sent to the identity provider (0 on a cache hit, 1 otherwise). -/
structure TokenResult where
  result : Except PyError String
  cache : TokenCache
  authCalls : Nat
deriving Repr

/-- The cache-validity test of `get_wiz_token` lines 37-38:
`if token_cache['access_token'] and token_cache['expires_at']:` followed by
`if datetime.now() < token_cache['expires_at']:`.  Python truthiness: `None`
and the empty string are falsy; a `datetime` is always truthy. -/
def cacheHit (c : TokenCache) (now : Int) : Bool :=
  match c.access_token, c.expires_at with
  | some s, some e => !(s == "") && decide (now < e)
  | _, _ => false

/-- `get_wiz_token` (lines 32-73).  On a cache hit returns the cached token
unchanged.  Otherwise it posts to the auth URL; `raise_for_status` and
`response.json()` raise `RequestException`s, a missing `access_token` key
raises `KeyError`, and on success the two cache fields are written in turn:
`access_token` first, then `expires_at = now + (expires_in default 3600) - 60`. -/
def get_wiz_token (c : TokenCache) (now : Int) (resp : AuthResponse) : TokenResult :=
  if cacheHit c now then
    ⟨.ok (c.access_token.getD ""), c, 0⟩
  else
    match resp with
    | .networkFailure msg => ⟨.error (.requestException msg), c, 1⟩
    | .httpError st _ => ⟨.error (.requestException ("HTTP error " ++ toString st)), c, 1⟩
    | .invalidJson _ => ⟨.error (.requestException "token response is not valid JSON"), c, 1⟩
    | .jsonBody tok ei =>
      match tok with
      | none => ⟨.error (.keyError "access_token"), c, 1⟩
      | some s =>
        let c1 : TokenCache := ⟨some s, c.expires_at⟩
        let expires_in : Int := ei.getD 3600 - 60
        let c2 : TokenCache := ⟨c1.access_token, some (now + expires_in)⟩
        ⟨.ok s, c2, 1⟩

/-- An HTTP response sent back to the caller: status, body, and the headers
the handler sets explicitly. -/
structure HttpResponse where
  status : Int
  body : String
  headers : List (String × String)
deriving Repr

/-- Outcome of one `proxy_graphql` invocation: the response to the caller, the
token cache afterwards, the number of identity-provider calls, the number of
upstream POSTs attempted, and the payload/authorization actually forwarded
upstream (none when nothing was forwarded). -/
structure ProxyResult where
  resp : HttpResponse
  cache : TokenCache
  authCalls : Nat
  upstreamCalls : Nat
  forwarded : Option (JsonVal × String)
deriving Repr

/-- Inbound method on the GraphQL route. -/
inductive Method where
  | POST
  | OPTIONS
deriving DecidableEq, Repr

def corsPreflightHeaders : List (String × String) :=
  [("Access-Control-Allow-Origin", "*"),
   ("Access-Control-Allow-Methods", "POST, OPTIONS"),
   ("Access-Control-Allow-Headers", "Content-Type, Authorization")]

/-- The body `jsonify({'error': str(e)})` of the 500 handler. -/
def errBody (e : PyError) : String :=
  let msg := match e with
    | .requestException m => m
    | .keyError k => "\x27" ++ k ++ "\x27"
    | .badRequest m => m
  "\x7b\"error\": \"" ++ msg ++ "\"\x7d"

/-- The POST branch of `proxy_graphql` (lines 87-122): get a token, parse the
inbound JSON body, forward it with a bearer header, relay the upstream status
and body with CORS injected; any exception falls into the
`except Exception` handler, which returns `jsonify({'error': str(e)}), 500`
(note: that handler sets no CORS header). -/
def handlePost (tr : TokenResult) (gj : Except PyError JsonVal) (up : UpstreamResult) :
    ProxyResult :=
  match tr.result with
  | .error e =>
    ⟨⟨500, errBody e, [("Content-Type", "application/json")]⟩, tr.cache, tr.authCalls, 0, none⟩
  | .ok tok =>
    match gj with
    | .error e =>
      ⟨⟨500, errBody e, [("Content-Type", "application/json")]⟩, tr.cache, tr.authCalls, 0, none⟩
    | .ok q =>
      match up with
      | .networkError msg =>
        ⟨⟨500, errBody (.requestException msg), [("Content-Type", "application/json")]⟩,
          tr.cache, tr.authCalls, 1, some (q, "Bearer " ++ tok)⟩
      | .response st body =>
        ⟨⟨st, body,
            [("Content-Type", "application/json"), ("Access-Control-Allow-Origin", "*")]⟩,
          tr.cache, tr.authCalls, 1, some (q, "Bearer " ++ tok)⟩

/-- `proxy_graphql` (lines 75-122): OPTIONS returns the CORS preflight
response immediately; POST runs the token/forward/relay pipeline. -/
def proxy_graphql (c : TokenCache) (now : Int) (env : ProxyEnv) (m : Method) : ProxyResult :=
  match m with
  | .OPTIONS => ⟨⟨200, "", corsPreflightHeaders⟩, c, 0, 0, none⟩
  | .POST => handlePost (get_wiz_token c now env.authResp) env.getJsonResult env.upstream

/-- `introspection` (lines 129-132): the POST-only alias route that delegates
to `proxy_graphql`. -/
def introspection (c : TokenCache) (now : Int) (env : ProxyEnv) : ProxyResult :=
  proxy_graphql c now env .POST

/-- `health` (lines 124-127). -/
def health : HttpResponse :=
  ⟨200, "\x7b\"status\": \"healthy\"\x7d", []⟩

/-- The cache state after a successful acquisition at time `T` of a token `s`
with provider-reported lifetime `L`, as written by lines 62-66. -/
def storedCache (s : String) (T L : Int) : TokenCache :=
  ⟨some s, some (T + (L - 60))⟩

/-!
Interleaving model for concurrent requests.  Flask serves requests on
concurrent threads; the source contains no lock, so the shared `token_cache`
dict is accessed with no mutual exclusion.  Under CPython each statement-level
dict read/write is atomic, so we model each request's miss path of
`get_wiz_token` as four atomic statements that the scheduler interleaves
freely: the validity test (lines 37-38), the provider call (lines 46-59), the
write of `access_token` (line 62), and the write of `expires_at` (line 66).
Each request records the cache value its validity test read, so that what a
request observes can be stated.  All requests run while the provider
consistently answers with token `s` and lifetime `L`.
-/

/-- Program counter of one in-flight request inside `get_wiz_token`. -/
inductive PC where
  | checkTok
  | fetchTok
  | writeTok
  | writeExp
  | finished
deriving DecidableEq, Repr

/-- One in-flight request: its program counter, and the cache value its
validity test (lines 37-38) read, recorded once the test has run. -/
structure RReq where
  pc : PC
  seen : Option TokenCache
deriving DecidableEq, Repr

/-- Shared state: the global token cache, the number of acquisition calls the
identity provider has received, and each request's local state. -/
structure ConcState where
  cache : TokenCache
  authCalls : Nat
  reqs : List RReq
deriving Repr

/-- One atomic statement of request `i`.  A request whose validity test
succeeds returns the cached token and finishes; a request that misses calls
the provider, then writes the two cache fields one at a time.  The validity
test records the cache value it read. -/
def stepReq (now : Int) (s : String) (L : Int) (g : ConcState) (i : Nat) : ConcState :=
  match g.reqs[i]? with
  | none => g
  | some r =>
    match r.pc with
    | .checkTok =>
      if cacheHit g.cache now then
        ⟨g.cache, g.authCalls, g.reqs.set i ⟨.finished, some g.cache⟩⟩
      else
        ⟨g.cache, g.authCalls, g.reqs.set i ⟨.fetchTok, some g.cache⟩⟩
    | .fetchTok => ⟨g.cache, g.authCalls + 1, g.reqs.set i ⟨.writeTok, r.seen⟩⟩
    | .writeTok => ⟨⟨some s, g.cache.expires_at⟩, g.authCalls, g.reqs.set i ⟨.writeExp, r.seen⟩⟩
    | .writeExp =>
      ⟨⟨g.cache.access_token, some (now + (L - 60))⟩, g.authCalls,
        g.reqs.set i ⟨.finished, r.seen⟩⟩
    | .finished => g

/-- Run a schedule: a list of request indices, each entry executing one atomic
statement of that request. -/
def runReqs (now : Int) (s : String) (L : Int) (g : ConcState) (sched : List Nat) : ConcState :=
  sched.foldl (stepReq now s L) g

/-- `N` requests arriving while the cache is empty: every request is at its
validity test (nothing observed yet) and the provider has received no call. -/
def initConc (n : Nat) : ConcState :=
  ⟨⟨none, none⟩, 0, List.replicate n ⟨.checkTok, none⟩⟩

/-- The cache value request `i`'s validity test read, once it has run. -/
def observedCache (g : ConcState) (i : Nat) : Option TokenCache :=
  match g.reqs[i]? with
  | none => none
  | some r => r.seen

/-- How many provider calls a request may still make from its current program
point: 1 before its (unique) provider call, 0 after. -/
def fetchBudget : PC → Nat
  | .checkTok => 1
  | .fetchTok => 1
  | _ => 0

def budgetSum (l : List RReq) : Nat :=
  (l.map (fun r => fetchBudget r.pc)).sum

/-- The cache values that can exist when the two fields are written by
separate (individually atomic) statements, starting from the empty cache:
nothing written, the `access_token` of line 62 written but the `expires_at`
of line 66 not yet, or both written. -/
def fieldAtomicState (now : Int) (s : String) (L : Int) (c : TokenCache) : Prop :=
  c = ⟨none, none⟩ ∨ c = ⟨some s, none⟩ ∨ c = ⟨some s, some (now + (L - 60))⟩

/-- Inductive invariant of the interleaving model: the cache is always in a
field-atomic state, any request about to run line 66 has already run line 62,
and every recorded observation is a field-atomic state. -/
def concInv (now : Int) (s : String) (L : Int) (g : ConcState) : Prop :=
  fieldAtomicState now s L g.cache ∧
  (∀ r ∈ g.reqs, r.pc = PC.writeExp → g.cache.access_token = some s) ∧
  (∀ r ∈ g.reqs, ∀ c, r.seen = some c → fieldAtomicState now s L c)

/-!
Helper lemmas.
-/

/-- On a cache hit `get_wiz_token` returns the cached token, touches nothing,
and calls the provider zero times. -/
theorem get_wiz_token_hit (c : TokenCache) (now : Int) (r : AuthResponse)
    (h : cacheHit c now = true) :
    get_wiz_token c now r = ⟨.ok (c.access_token.getD ""), c, 0⟩ := by
  simp [get_wiz_token, h]

/-- On a cache miss `get_wiz_token` calls the provider exactly once, whatever
the provider answers. -/
theorem get_wiz_token_miss_calls (c : TokenCache) (now : Int) (r : AuthResponse)
    (h : cacheHit c now = false) :
    (get_wiz_token c now r).authCalls = 1 := by
  cases r with
  | networkFailure m => simp [get_wiz_token, h]
  | httpError st b => simp [get_wiz_token, h]
  | invalidJson b => simp [get_wiz_token, h]
  | jsonBody tok ei => cases tok <;> simp [get_wiz_token, h]

/-!
Claim theorems.
-/

/-- C2: on a successful token acquisition, the cached expiry is the current
time plus the provider-reported lifetime minus a fixed 60-second margin, and
when the provider response omits `expires_in` the lifetime defaults to
3600 seconds. -/
theorem token_expiry_margin (c : TokenCache) (now : Int) (s : String) (L : Int)
    (h : cacheHit c now = false) :
    (get_wiz_token c now (.jsonBody (some s) (some L))).result = .ok s ∧
    (get_wiz_token c now (.jsonBody (some s) (some L))).cache =
      ⟨some s, some (now + L - 60)⟩ ∧
    (get_wiz_token c now (.jsonBody (some s) none)).cache =
      ⟨some s, some (now + 3600 - 60)⟩ := by
  refine ⟨?_, ?_, ?_⟩ <;> simp [get_wiz_token, h, TokenCache.mk.injEq] <;> omega

/-- Witness for C2 at a concrete input: empty cache, acquisition at time 0 of
token "tk" with lifetime 3600, and once with `expires_in` absent. -/
theorem token_expiry_margin_witness :
    (get_wiz_token ⟨none, none⟩ 0 (.jsonBody (some "tk") (some 3600))).result = .ok "tk" ∧
    (get_wiz_token ⟨none, none⟩ 0 (.jsonBody (some "tk") (some 3600))).cache =
      ⟨some "tk", some (0 + 3600 - 60)⟩ ∧
    (get_wiz_token ⟨none, none⟩ 0 (.jsonBody (some "tk") none)).cache =
      ⟨some "tk", some (0 + 3600 - 60)⟩ :=
  token_expiry_margin ⟨none, none⟩ 0 "tk" 3600 rfl

/-- C3: for every upstream HTTP response with body `B` and status `S`
(4xx/5xx and GraphQL-error bodies included), the proxy's response has body
exactly `B` and status exactly `S`, with the CORS header added. -/
theorem passthrough_fidelity (c : TokenCache) (now : Int) (env : ProxyEnv)
    (tok : String) (q : JsonVal) (S : Int) (B : String)
    (h1 : (get_wiz_token c now env.authResp).result = .ok tok)
    (h2 : env.getJsonResult = .ok q)
    (h3 : env.upstream = .response S B) :
    (proxy_graphql c now env .POST).resp.status = S ∧
    (proxy_graphql c now env .POST).resp.body = B ∧
    ("Access-Control-Allow-Origin", "*") ∈ (proxy_graphql c now env .POST).resp.headers := by
  simp [proxy_graphql, handlePost, h1, h2, h3]

/-- Witness for C3: a cache hit, an upstream 418 response with body
"teapot", relayed verbatim with the CORS header. -/
theorem passthrough_fidelity_witness :
    (proxy_graphql ⟨some "tk", some 10⟩ 0
        ⟨.networkFailure "x", .ok (.str "q"), .response 418 "teapot"⟩ .POST).resp.status = 418 ∧
    (proxy_graphql ⟨some "tk", some 10⟩ 0
        ⟨.networkFailure "x", .ok (.str "q"), .response 418 "teapot"⟩ .POST).resp.body = "teapot" ∧
    ("Access-Control-Allow-Origin", "*") ∈
      (proxy_graphql ⟨some "tk", some 10⟩ 0
        ⟨.networkFailure "x", .ok (.str "q"), .response 418 "teapot"⟩ .POST).resp.headers :=
  passthrough_fidelity ⟨some "tk", some 10⟩ 0
    ⟨.networkFailure "x", .ok (.str "q"), .response 418 "teapot"⟩ "tk" (.str "q") 418 "teapot"
    rfl rfl rfl

/-- C4: whenever token acquisition fails, the handler returns a 500 response
with an error body, and the inbound payload is never forwarded upstream. -/
theorem no_forward_on_auth_failure (c : TokenCache) (now : Int) (env : ProxyEnv) (e : PyError)
    (h : (get_wiz_token c now env.authResp).result = .error e) :
    (proxy_graphql c now env .POST).resp.status = 500 ∧
    (proxy_graphql c now env .POST).resp.body = errBody e ∧
    (proxy_graphql c now env .POST).forwarded = none ∧
    (proxy_graphql c now env .POST).upstreamCalls = 0 := by
  simp [proxy_graphql, handlePost, h]

/-- Witness for C4: empty cache and an identity provider answering 401, so
acquisition fails and nothing is forwarded. -/
theorem no_forward_on_auth_failure_witness :
    (proxy_graphql ⟨none, none⟩ 0
        ⟨.httpError 401 "denied", .ok (.str "q"), .response 200 "ok"⟩ .POST).resp.status = 500 ∧
    (proxy_graphql ⟨none, none⟩ 0
        ⟨.httpError 401 "denied", .ok (.str "q"), .response 200 "ok"⟩ .POST).resp.body =
      errBody (.requestException ("HTTP error " ++ toString (401 : Int))) ∧
    (proxy_graphql ⟨none, none⟩ 0
        ⟨.httpError 401 "denied", .ok (.str "q"), .response 200 "ok"⟩ .POST).forwarded = none ∧
    (proxy_graphql ⟨none, none⟩ 0
        ⟨.httpError 401 "denied", .ok (.str "q"), .response 200 "ok"⟩ .POST).upstreamCalls = 0 :=
  no_forward_on_auth_failure ⟨none, none⟩ 0
    ⟨.httpError 401 "denied", .ok (.str "q"), .response 200 "ok"⟩
    (.requestException ("HTTP error " ++ toString (401 : Int))) rfl

/-- C6: an OPTIONS request on the GraphQL route returns 200 with exactly the
three CORS headers, makes no provider call and no upstream call, forwards
nothing, and leaves the token cache unchanged. -/
theorem preflight_isolation (c : TokenCache) (now : Int) (env : ProxyEnv) :
    proxy_graphql c now env .OPTIONS =
      ⟨⟨200, "", [("Access-Control-Allow-Origin", "*"),
                  ("Access-Control-Allow-Methods", "POST, OPTIONS"),
                  ("Access-Control-Allow-Headers", "Content-Type, Authorization")]⟩,
        c, 0, 0, none⟩ := rfl

/-- C9: when the provider answers with a non-success status or a body that is
not valid JSON, `get_wiz_token` raises a `RequestException` and both cache
fields keep exactly their previous values. -/
theorem acquisition_failure_atomic (c : TokenCache) (now : Int) (st : Int) (b1 b2 : String)
    (h : cacheHit c now = false) :
    get_wiz_token c now (.httpError st b1) =
      ⟨.error (.requestException ("HTTP error " ++ toString st)), c, 1⟩ ∧
    get_wiz_token c now (.invalidJson b2) =
      ⟨.error (.requestException "token response is not valid JSON"), c, 1⟩ := by
  simp [get_wiz_token, h]

/-- Witness for C9: a non-empty cached-but-expired cache hit by a 500 from
the provider and by an unparsable body; the cache is unchanged in both. -/
theorem acquisition_failure_atomic_witness :
    get_wiz_token ⟨some "old", some 5⟩ 9 (.httpError 500 "oops") =
      ⟨.error (.requestException ("HTTP error " ++ toString (500 : Int))),
        ⟨some "old", some 5⟩, 1⟩ ∧
    get_wiz_token ⟨some "old", some 5⟩ 9 (.invalidJson "<html>") =
      ⟨.error (.requestException "token response is not valid JSON"),
        ⟨some "old", some 5⟩, 1⟩ :=
  acquisition_failure_atomic ⟨some "old", some 5⟩ 9 500 "oops" "<html>" rfl

/-- C10: a success-status JSON body lacking the `access_token` key makes
`get_wiz_token` raise a `KeyError` (not the `RequestException` path) with no
cache field modified, and the handler converts it into a 500 JSON error
response; nothing is forwarded upstream. -/
theorem missing_access_token_key (c : TokenCache) (now : Int) (ei : Option Int)
    (gj : Except PyError JsonVal) (up : UpstreamResult)
    (h : cacheHit c now = false) :
    get_wiz_token c now (.jsonBody none ei) = ⟨.error (.keyError "access_token"), c, 1⟩ ∧
    (proxy_graphql c now ⟨.jsonBody none ei, gj, up⟩ .POST).resp.status = 500 ∧
    (proxy_graphql c now ⟨.jsonBody none ei, gj, up⟩ .POST).resp.body =
      errBody (.keyError "access_token") ∧
    (proxy_graphql c now ⟨.jsonBody none ei, gj, up⟩ .POST).forwarded = none ∧
    (proxy_graphql c now ⟨.jsonBody none ei, gj, up⟩ .POST).cache = c := by
  simp [proxy_graphql, handlePost, get_wiz_token, h]

/-- Witness for C10: empty cache, provider returns `{"expires_in": 3600}`
with no `access_token` key. -/
theorem missing_access_token_key_witness :
    get_wiz_token ⟨none, none⟩ 0 (.jsonBody none (some 3600)) =
      ⟨.error (.keyError "access_token"), ⟨none, none⟩, 1⟩ ∧
    (proxy_graphql ⟨none, none⟩ 0
        ⟨.jsonBody none (some 3600), .ok (.str "q"), .response 200 "ok"⟩
        .POST).resp.status = 500 := by
  exact ⟨(missing_access_token_key ⟨none, none⟩ 0 (some 3600)
      (.ok (.str "q")) (.response 200 "ok") rfl).1, rfl⟩

/-- Counterexample to C1 as stated: the claim quantifies over every token
stored in the cache, but Python treats an empty `access_token` string as
falsy in the validity test (line 37).  Storing the empty token at `T = 0`
with lifetime 3600 and querying at time 0 (strictly before `T + L - 60 = 3540`)
does not return the cached token: the lookup treats the cache as empty and
attempts a fresh acquisition (which here fails). -/
theorem cache_validity_cex :
    (get_wiz_token ⟨none, none⟩ 0 (.jsonBody (some "") (some 3600))).cache =
      ⟨some "", some 3540⟩ ∧
    (get_wiz_token (⟨some "", some 3540⟩ : TokenCache) 0 (.httpError 500 "x")).authCalls = 1 ∧
    (get_wiz_token (⟨some "", some 3540⟩ : TokenCache) 0 (.httpError 500 "x")).result =
      .error (.requestException ("HTTP error " ++ toString (500 : Int))) := by
  refine ⟨?_, ?_, ?_⟩ <;> rfl

/-- C1 amended: for every NON-EMPTY token stored with lifetime `L` at time
`T`, the cache check returns the cached token (with no provider call) for
every query time strictly before `T + L - 60`, and treats the cache as empty
(proceeding to a fresh acquisition) for every query time at or after
`T + L - 60`. -/
theorem cache_validity_amended (s : String) (hs : s ≠ "") (T L t : Int) (r : AuthResponse) :
    (t < T + L - 60 →
      get_wiz_token (storedCache s T L) t r = ⟨.ok s, storedCache s T L, 0⟩) ∧
    (T + L - 60 ≤ t →
      (get_wiz_token (storedCache s T L) t r).authCalls = 1) := by
  constructor
  · intro h
    have hc : cacheHit (storedCache s T L) t = true := by
      simp [cacheHit, storedCache, hs]
      omega
    rw [get_wiz_token_hit _ _ _ hc]
    simp [storedCache]
  · intro h
    have hc : cacheHit (storedCache s T L) t = false := by
      simp [cacheHit, storedCache, hs]
      omega
    exact get_wiz_token_miss_calls _ _ _ hc

/-- Witness for amended C1: token "tk" stored at time 0 with lifetime 3600 is
returned at time 100 and triggers a fresh acquisition at time 4000. -/
theorem cache_validity_amended_witness :
    get_wiz_token (storedCache "tk" 0 3600) 100 (.httpError 500 "x") =
      ⟨.ok "tk", storedCache "tk" 0 3600, 0⟩ ∧
    (get_wiz_token (storedCache "tk" 0 3600) 4000 (.httpError 500 "x")).authCalls = 1 :=
  ⟨(cache_validity_amended "tk" (by decide) 0 3600 100 (.httpError 500 "x")).1 (by decide),
   (cache_validity_amended "tk" (by decide) 0 3600 4000 (.httpError 500 "x")).2 (by decide)⟩

/-- Counterexample to C5 as stated: when token acquisition fails, the
`except` handler returns `jsonify({'error': ...}), 500`, which carries no
`Access-Control-Allow-Origin` header at all. -/
theorem cors_on_all_responses_cex :
    ("Access-Control-Allow-Origin", "*") ∉
      (proxy_graphql ⟨none, none⟩ 0
        ⟨.httpError 401 "denied", .ok (.str "q"), .response 200 "ok"⟩ .POST).resp.headers := by
  decide

/-- Every path of the POST pipeline either injects the CORS header or is the
bare 500 error-handler response. -/
theorem handlePost_cors (tr : TokenResult) (gj : Except PyError JsonVal) (up : UpstreamResult) :
    ("Access-Control-Allow-Origin", "*") ∈ (handlePost tr gj up).resp.headers ∨
      ((handlePost tr gj up).resp.status = 500 ∧
        (handlePost tr gj up).resp.headers = [("Content-Type", "application/json")]) := by
  cases htr : tr.result with
  | error e =>
    right
    simp [handlePost, htr]
  | ok tok =>
    cases gj with
    | error e =>
      right
      simp [handlePost, htr]
    | ok q =>
      cases up with
      | networkError m =>
        right
        simp [handlePost, htr]
      | response st b =>
        left
        simp [handlePost, htr]

/-- C5 amended: every response produced by the `/graphql` and
`/introspection` handlers on the preflight and relay paths carries
`Access-Control-Allow-Origin: *`; the 500 responses produced by the
exception handler (acquisition failure, body-parse failure, upstream network
failure) carry no CORS header. -/
theorem cors_on_all_responses_amended (c : TokenCache) (now : Int) (env : ProxyEnv)
    (m : Method) :
    (("Access-Control-Allow-Origin", "*") ∈ (proxy_graphql c now env m).resp.headers ∨
      ((proxy_graphql c now env m).resp.status = 500 ∧
        (proxy_graphql c now env m).resp.headers = [("Content-Type", "application/json")])) ∧
    (("Access-Control-Allow-Origin", "*") ∈ (introspection c now env).resp.headers ∨
      ((introspection c now env).resp.status = 500 ∧
        (introspection c now env).resp.headers = [("Content-Type", "application/json")])) := by
  constructor
  · cases m with
    | OPTIONS =>
      left
      simp [proxy_graphql, corsPreflightHeaders]
    | POST => exact handlePost_cors _ _ _
  · exact handlePost_cors _ _ _

/-- Counterexample to C7 as stated: the handler does parse the inbound body
(`request.get_json()`, line 98); an inbound body that is not valid JSON makes
the parse raise, so the request is answered 500 and never forwarded — even
though a valid token is available.  Forwarding does not succeed for every
inbound body. -/
theorem forwarding_unvalidated_cex :
    (proxy_graphql ⟨some "tk", some 10⟩ 0
        ⟨.networkFailure "x", .error (.badRequest "request body is not valid JSON"),
          .response 200 "ok"⟩ .POST).forwarded = none ∧
    (proxy_graphql ⟨some "tk", some 10⟩ 0
        ⟨.networkFailure "x", .error (.badRequest "request body is not valid JSON"),
          .response 200 "ok"⟩ .POST).resp.status = 500 ∧
    (proxy_graphql ⟨some "tk", some 10⟩ 0
        ⟨.networkFailure "x", .error (.badRequest "request body is not valid JSON"),
          .response 200 "ok"⟩ .POST).upstreamCalls = 0 := by
  refine ⟨rfl, rfl, rfl⟩

/-- C7 amended: the proxy applies no GraphQL-level validation — whenever the
inbound body parses as JSON (any JSON value `q` whatsoever) and a token is
available, the forwarded payload is exactly `q` re-encoded, with the bearer
token attached. -/
theorem forwarding_unvalidated (c : TokenCache) (now : Int) (env : ProxyEnv)
    (tok : String) (q : JsonVal)
    (h1 : (get_wiz_token c now env.authResp).result = .ok tok)
    (h2 : env.getJsonResult = .ok q) :
    (proxy_graphql c now env .POST).forwarded = some (q, "Bearer " ++ tok) := by
  cases h3 : env.upstream <;> simp [proxy_graphql, handlePost, h1, h2, h3]

/-- Witness for amended C7: an arbitrary non-GraphQL JSON object is forwarded
untouched. -/
theorem forwarding_unvalidated_witness :
    (proxy_graphql ⟨some "tk", some 10⟩ 0
        ⟨.networkFailure "x", .ok (.obj [("notGraphql", .num 3)]), .response 200 "ok"⟩
        .POST).forwarded = some (.obj [("notGraphql", .num 3)], "Bearer " ++ "tk") :=
  forwarding_unvalidated ⟨some "tk", some 10⟩ 0
    ⟨.networkFailure "x", .ok (.obj [("notGraphql", .num 3)]), .response 200 "ok"⟩
    "tk" (.obj [("notGraphql", .num 3)]) rfl rfl

/-- Counterexample to C8 as stated, refuting both conjuncts.  First conjunct:
`get_wiz_token` has no lock around its check-then-act sequence, so with 2
concurrent requests and an empty cache the schedule in which both requests
run their validity test before either calls the provider makes the identity
provider receive 2 = N acquisition calls, not a bounded small number
independent of N.  Second conjunct: under the schedule where request 0 runs
its check, its provider call, and the `access_token` write of line 62 but
not yet the `expires_at` write of line 66, request 1's validity test observes
the cache value `⟨some "tk", none⟩` — a partially written token: it is
neither the cache state before the acquisition's writes began nor the state
after they completed. -/
theorem single_acquisition_cex :
    (initConc 2).reqs.length = 2 ∧
    (runReqs 0 "tk" 3600 (initConc 2) [0, 1, 0, 1]).authCalls = 2 ∧
    observedCache (runReqs 0 "tk" 3600 (initConc 2) [0, 0, 0, 1]) 1 =
      some ⟨some "tk", none⟩ ∧
    (⟨some "tk", none⟩ : TokenCache) ≠ ⟨none, none⟩ ∧
    (⟨some "tk", none⟩ : TokenCache) ≠
      (get_wiz_token ⟨none, none⟩ 0 (.jsonBody (some "tk") (some 3600))).cache := by
  refine ⟨rfl, rfl, rfl, by decide, by decide⟩

/-- Setting index `i` (which holds `r`) to `x` shifts the total remaining
fetch budget by the budget difference of the two program points. -/
theorem budgetSum_set (l : List RReq) (i : Nat) (r x : RReq) (h : l[i]? = some r) :
    budgetSum (l.set i x) + fetchBudget r.pc = budgetSum l + fetchBudget x.pc := by
  induction l generalizing i with
  | nil => simp at h
  | cons a t ih =>
    cases i with
    | zero =>
      simp only [List.getElem?_cons_zero, Option.some.injEq] at h
      subst h
      simp [budgetSum, List.set]
      omega
    | succ n =>
      simp only [List.getElem?_cons_succ] at h
      have := ih n h
      simp only [List.set, budgetSum, List.map_cons, List.sum_cons] at *
      omega

/-- One atomic step never increases `authCalls + remaining fetch budget`. -/
theorem stepReq_bound (now : Int) (s : String) (L : Int) (g : ConcState) (i : Nat) :
    (stepReq now s L g i).authCalls + budgetSum (stepReq now s L g i).reqs ≤
      g.authCalls + budgetSum g.reqs := by
  cases h : g.reqs[i]? with
  | none => simp [stepReq, h]
  | some r =>
    obtain ⟨pc, seen⟩ := r
    cases pc with
    | checkTok =>
      by_cases hc : cacheHit g.cache now = true
      · have hb := budgetSum_set g.reqs i ⟨.checkTok, seen⟩ ⟨.finished, some g.cache⟩ h
        simp only [fetchBudget] at hb
        simp only [stepReq, h, hc, ite_true]
        omega
      · have hb := budgetSum_set g.reqs i ⟨.checkTok, seen⟩ ⟨.fetchTok, some g.cache⟩ h
        simp only [fetchBudget] at hb
        simp only [stepReq, h]
        rw [if_neg hc]
        dsimp only
        omega
    | fetchTok =>
      have hb := budgetSum_set g.reqs i ⟨.fetchTok, seen⟩ ⟨.writeTok, seen⟩ h
      simp only [fetchBudget] at hb
      simp only [stepReq, h]
      omega
    | writeTok =>
      have hb := budgetSum_set g.reqs i ⟨.writeTok, seen⟩ ⟨.writeExp, seen⟩ h
      simp only [fetchBudget] at hb
      simp only [stepReq, h]
      omega
    | writeExp =>
      have hb := budgetSum_set g.reqs i ⟨.writeExp, seen⟩ ⟨.finished, seen⟩ h
      simp only [fetchBudget] at hb
      simp only [stepReq, h]
      omega
    | finished => simp [stepReq, h]

/-- Over any schedule, `authCalls + remaining fetch budget` never increases. -/
theorem runReqs_bound (now : Int) (s : String) (L : Int) (sched : List Nat) (g : ConcState) :
    (runReqs now s L g sched).authCalls + budgetSum (runReqs now s L g sched).reqs ≤
      g.authCalls + budgetSum g.reqs := by
  induction sched generalizing g with
  | nil => simp [runReqs]
  | cons i rest ih =>
    have h1 : runReqs now s L g (i :: rest) = runReqs now s L (stepReq now s L g i) rest := by
      simp [runReqs]
    rw [h1]
    exact le_trans (ih (stepReq now s L g i)) (stepReq_bound now s L g i)

theorem budgetSum_replicate (n : Nat) :
    budgetSum (List.replicate n ⟨PC.checkTok, none⟩) = n := by
  induction n with
  | zero => rfl
  | succ k ih =>
    simp only [List.replicate_succ, budgetSum, List.map_cons, List.sum_cons, fetchBudget] at *
    omega

/-- The invariant holds in the initial state. -/
theorem concInv_init (now : Int) (s : String) (L : Int) (n : Nat) :
    concInv now s L (initConc n) := by
  refine ⟨Or.inl rfl, ?_, ?_⟩
  · intro r hr hpc
    have he := (List.mem_replicate.mp hr).2
    subst he
    simp at hpc
  · intro r hr c hc
    have he := (List.mem_replicate.mp hr).2
    subst he
    simp at hc

/-- The invariant is preserved by every atomic step. -/
theorem stepReq_inv (now : Int) (s : String) (L : Int) (g : ConcState) (i : Nat)
    (h : concInv now s L g) : concInv now s L (stepReq now s L g i) := by
  obtain ⟨h1, h2, h3⟩ := h
  cases hr : g.reqs[i]? with
  | none =>
    simp only [stepReq, hr]
    exact ⟨h1, h2, h3⟩
  | some r =>
    obtain ⟨pc, seen⟩ := r
    have hrmem : (⟨pc, seen⟩ : RReq) ∈ g.reqs := List.getElem?_mem hr
    cases pc with
    | checkTok =>
      by_cases hc : cacheHit g.cache now = true
      · simp only [stepReq, hr, hc, ite_true]
        refine ⟨h1, ?_, ?_⟩
        · intro y hy hpcy
          rcases List.mem_or_eq_of_mem_set hy with hy' | rfl
          · exact h2 y hy' hpcy
          · simp at hpcy
        · intro y hy c hcy
          rcases List.mem_or_eq_of_mem_set hy with hy' | rfl
          · exact h3 y hy' c hcy
          · simp only at hcy
            cases hcy
            exact h1
      · simp only [stepReq, hr]
        rw [if_neg hc]
        refine ⟨h1, ?_, ?_⟩
        · intro y hy hpcy
          rcases List.mem_or_eq_of_mem_set hy with hy' | rfl
          · exact h2 y hy' hpcy
          · simp at hpcy
        · intro y hy c hcy
          rcases List.mem_or_eq_of_mem_set hy with hy' | rfl
          · exact h3 y hy' c hcy
          · simp only at hcy
            cases hcy
            exact h1
    | fetchTok =>
      simp only [stepReq, hr]
      refine ⟨h1, ?_, ?_⟩
      · intro y hy hpcy
        rcases List.mem_or_eq_of_mem_set hy with hy' | rfl
        · exact h2 y hy' hpcy
        · simp at hpcy
      · intro y hy c hcy
        rcases List.mem_or_eq_of_mem_set hy with hy' | rfl
        · exact h3 y hy' c hcy
        · exact h3 ⟨.fetchTok, seen⟩ hrmem c hcy
    | writeTok =>
      simp only [stepReq, hr]
      refine ⟨?_, ?_, ?_⟩
      · rcases h1 with hcc | hcc | hcc <;> rw [hcc] <;> simp [fieldAtomicState]
      · intro y hy hpcy
        rfl
      · intro y hy c hcy
        rcases List.mem_or_eq_of_mem_set hy with hy' | rfl
        · exact h3 y hy' c hcy
        · exact h3 ⟨.writeTok, seen⟩ hrmem c hcy
    | writeExp =>
      have htok : g.cache.access_token = some s := h2 ⟨.writeExp, seen⟩ hrmem rfl
      simp only [stepReq, hr]
      refine ⟨?_, ?_, ?_⟩
      · right
        right
        simp [htok]
      · intro y hy hpcy
        simp [htok]
      · intro y hy c hcy
        rcases List.mem_or_eq_of_mem_set hy with hy' | rfl
        · exact h3 y hy' c hcy
        · exact h3 ⟨.writeExp, seen⟩ hrmem c hcy
    | finished =>
      simp only [stepReq, hr]
      exact ⟨h1, h2, h3⟩

/-- The invariant holds after every schedule. -/
theorem runReqs_inv (now : Int) (s : String) (L : Int) (sched : List Nat) (g : ConcState)
    (h : concInv now s L g) : concInv now s L (runReqs now s L g sched) := by
  induction sched generalizing g with
  | nil => exact h
  | cons i rest ih =>
    have h1 : runReqs now s L g (i :: rest) = runReqs now s L (stepReq now s L g i) rest := by
      simp [runReqs]
    rw [h1]
    exact ih (stepReq now s L g i) (stepReq_inv now s L g i h)

/-- Every recorded observation over every schedule is a field-atomic state. -/
theorem runReqs_observed (now : Int) (s : String) (L : Int) (n : Nat) (sched : List Nat)
    (i : Nat) (c : TokenCache)
    (h : observedCache (runReqs now s L (initConc n) sched) i = some c) :
    fieldAtomicState now s L c := by
  obtain ⟨-, -, h3⟩ := runReqs_inv now s L sched (initConc n) (concInv_init now s L n)
  cases hg : (runReqs now s L (initConc n) sched).reqs[i]? with
  | none => simp [observedCache, hg] at h
  | some r =>
    simp only [observedCache, hg] at h
    exact h3 r (List.getElem?_mem hg) c h

/-- C8 amended: each request performs at most one acquisition — under `N`
concurrent requests arriving while the cache is empty, the identity provider
receives at most `N` acquisition calls over every schedule (and, per the
counterexample, there are schedules in which it receives exactly `N`); and
because the two cache fields are written by separate, individually atomic
statements (lines 62 and 66), every cache value a request's validity test
observes is one of the three field-atomic write states — including the
partially written `⟨some s, none⟩`, so a torn pair is observable, but never
a torn individual field. -/
theorem single_acquisition_amended (n : Nat) (sched : List Nat) (now : Int) (s : String)
    (L : Int) :
    (runReqs now s L (initConc n) sched).authCalls ≤ n ∧
    ∀ i c, observedCache (runReqs now s L (initConc n) sched) i = some c →
      c = ⟨none, none⟩ ∨ c = ⟨some s, none⟩ ∨ c = ⟨some s, some (now + (L - 60))⟩ := by
  constructor
  · have h := runReqs_bound now s L sched (initConc n)
    have h2 : budgetSum (initConc n).reqs = n := budgetSum_replicate n
    simp only [initConc] at h h2 ⊢
    omega
  · intro i c h
    exact runReqs_observed now s L n sched i c h

/-- Witness for amended C8: with 2 concurrent requests on an empty cache and
the schedule where request 0 stops between its two cache writes, request 1's
observation is the (partially written) field-atomic state `⟨some "tk", none⟩`,
and the provider received at most 2 calls. -/
theorem single_acquisition_amended_witness :
    (runReqs 0 "tk" 3600 (initConc 2) [0, 0, 0, 1]).authCalls ≤ 2 ∧
    ((⟨some "tk", none⟩ : TokenCache) = ⟨none, none⟩ ∨
      (⟨some "tk", none⟩ : TokenCache) = ⟨some "tk", none⟩ ∨
      (⟨some "tk", none⟩ : TokenCache) = ⟨some "tk", some ((0 : Int) + (3600 - 60))⟩) :=
  ⟨(single_acquisition_amended 2 [0, 0, 0, 1] 0 "tk" 3600).1,
   (single_acquisition_amended 2 [0, 0, 0, 1] 0 "tk" 3600).2 1 ⟨some "tk", none⟩ rfl⟩
